import Mathlib

/-!
Shallow embedding of the xuandb meta service (package `meta`) and of the
duration helpers (package `utils`), together with proofs about the
behaviour claimed in the specification.

Modelling conventions:
* Go maps (`map[string]*T`) become association lists `List (String × T)`
  without duplicate keys, or — for the runtime `nodes` map, where only
  extensional state matters — functions `String → Option T`.
* Machine integers: `Privilege` is `uint` and is modelled as `Nat` with
  explicit bit operations; `time.Duration` (an `int64` nanosecond count)
  is modelled as `Nat` for the non-negative values the claims quantify
  over, with the `2^63` overflow bounds of the Go code written out.
* `time.Time` values are modelled as `Int` instants; `time.Time.Before`
  is `<`.
* Strings handled byte/char-wise by the Go code (`Privilege.parse`,
  `ParseDuration`, `FormatDuration`) are modelled as `List Char`; the
  relevant inputs are ASCII, where Go's byte loops and the char model
  agree.
* `subtle.ConstantTimeCompare(a, b) == 0` is exactly inequality of the
  two byte strings, and is modelled as `String` inequality.
* Fallible operations return `Option StatusError` (`none` = the Go
  `nil` error) next to the updated state.
-/

/-- Status-coded error, mirroring `xerrors.StatusError` (`xerrors.New(code, msg)`). -/
structure StatusError where
  StatusCode : Nat
  Msg : String
deriving DecidableEq, Repr

/-- `ErrUserExists` from `user.go`: 409 conflict. -/
def ErrUserExists : StatusError := ⟨409, "user already exists"⟩

/-- `ErrUserNotExists` from `user.go`: 404 not found. -/
def ErrUserNotExists : StatusError := ⟨404, "user does not exist"⟩

/-- `ErrSystemUser` from `user.go`: 403 forbidden. -/
def ErrSystemUser : StatusError := ⟨403, "user is a system user"⟩

/-- `ErrAuthRequired` from `user.go`: 401 unauthorized. -/
def ErrAuthRequired : StatusError := ⟨401, "authorization required"⟩

/-- `ErrPasswordMismatch` from `user.go`: 401 unauthorized. -/
def ErrPasswordMismatch : StatusError := ⟨401, "password mismatch or user not exists"⟩

/-- `ErrInsufficientPrivileges` from `user.go`: 403 forbidden. -/
def ErrInsufficientPrivileges : StatusError := ⟨403, "insufficient privileges"⟩

/-- `ErrDatabaseExists` from `database.go`: 409 conflict. -/
def ErrDatabaseExists : StatusError := ⟨409, "database already exists"⟩

/-- `ErrDatabaseNotExists` from `database.go`: 404 not found. -/
def ErrDatabaseNotExists : StatusError := ⟨404, "database does not exist"⟩

/-- `Privilege` is `type Privilege uint`; modelled as `Nat` bit masks. -/
abbrev Privilege := Nat

/-- `PrivilegeNone Privilege = 0`. -/
def PrivilegeNone : Privilege := 0

/-- `PrivilegeDebug Privilege = 1`. -/
def PrivilegeDebug : Privilege := 1

/-- `PrivilegeRead Privilege = 2`. -/
def PrivilegeRead : Privilege := 2

/-- `PrivilegeWrite Privilege = 4`. -/
def PrivilegeWrite : Privilege := 4

/-- `PrivilegeMask Privilege = 7`. -/
def PrivilegeMask : Privilege := 7

/-- `PrivilegeAdmin Privilege = math.MaxInt + 1`, i.e. `2^63` on a 64-bit uint. -/
def PrivilegeAdmin : Privilege := 2 ^ 63

/-- Association-list lookup standing for a Go map read `m[k]` (zero or one
entry per key). -/
def mlookup (k : String) : List (String × α) → Option α
  | [] => none
  | (k1, v) :: rest => if k = k1 then some v else mlookup k rest

/-- Association-list update standing for a Go map write `m[k] = v`. -/
def minsert (k : String) (v : α) : List (String × α) → List (String × α)
  | [] => [(k, v)]
  | (k1, v1) :: rest =>
      if k = k1 then (k, v) :: rest else (k1, v1) :: minsert k v rest

/-- Association-list removal standing for the Go `delete(m, k)`. -/
def mdelete (k : String) : List (String × α) → List (String × α)
  | [] => []
  | (k1, v1) :: rest =>
      if k = k1 then mdelete k rest else (k1, v1) :: mdelete k rest

/-- `strings.ToLower` for the ASCII names at hand, written so that the
kernel can evaluate it (`String.toLower` in core is not reducible). -/
def toLower (s : String) : String :=
  ⟨s.data.map Char.toLower⟩

/-- `User` from `user.go` (the `json` tags only rename fields). -/
structure User where
  Name : String
  Password : String
  CreatedAt : Int
  System : Bool
  Priv : Privilege
  DbPriv : List (String × Privilege)
deriving DecidableEq, Repr

/-- `Database` from `database.go`; `Duration` is a nanosecond count. -/
structure Database where
  Name : String
  Duration : Nat
deriving DecidableEq, Repr

/-- `Data` from `service.go` (part of the FSM): the catalog. The mutex
field is not part of the state. -/
structure Data where
  Users : List (String × User)
  Databases : List (String × Database)
deriving DecidableEq, Repr

/-- `newData()`: both maps start empty. -/
def newData : Data := { Users := [], Databases := [] }

/-- `Data.clone` from the FSM file: `r := newData()`, then the loop
`for k, v := range d.Users { r.Users[k] = v }` copies the `Users`
entries only; `r.Databases` keeps `newData`'s empty map. -/
def Data.clone (d : Data) : Data :=
  { newData with Users := d.Users }

/-- Shape of the bytes `Data.Persist` writes: `json.Marshal(d)` encodes the
two exported fields `Users` and `Databases` (the lock is unexported and
skipped). The JSON value layer is modelled as the identity on the two
field values. -/
structure EncodedData where
  users : List (String × User)
  databases : List (String × Database)
deriving DecidableEq, Repr

/-- `Data.Persist`: marshal the catalog to the snapshot sink. -/
def Data.Persist (d : Data) : EncodedData :=
  { users := d.Users, databases := d.Databases }

/-- `service.Snapshot`: returns `s.md.clone()`. -/
def Snapshot (d : Data) : Data := d.clone

/-- `service.Restore`: `d := newData()`, decode the snapshot bytes into `d`
(which replaces both maps with the decoded ones), and install it. -/
def Restore (e : EncodedData) : Data :=
  { Users := e.users, Databases := e.databases }

/-- The payload of `createUserCommand`: the embedded `*User` (the `op`
discriminator only routes dispatch and is dropped here). -/
abbrev createUserCommand := User

/-- `applyCreateUser` from `user.go`: look the lowercased name up; if absent,
force `Priv = PrivilegeAdmin` and `System = true` when the `Users` map is
empty, store the command's user, and return `nil`; if present, return
`ErrUserExists`. Returns the updated catalog next to the Go return value. -/
def applyCreateUser (cmd : createUserCommand) (md : Data) : Data × Option StatusError :=
  let key := toLower cmd.Name
  match mlookup key md.Users with
  | none =>
      if md.Users.isEmpty then
        ({ md with Users :=
            minsert key { cmd with Priv := PrivilegeAdmin, System := true } md.Users }, none)
      else
        ({ md with Users := minsert key cmd md.Users }, none)
  | some _ => (md, some ErrUserExists)

/-- `UserByName` from `user.go`: lowercased lookup in the `Users` map. -/
def UserByName (name : String) (md : Data) : Option User :=
  mlookup (toLower name) md.Users

/-- `leaderCreateUser` from `user.go`: pre-check for an existing user, stamp
`CreatedAt = time.Now()` (the instant is the `now` argument), then apply the
`create-user` command through raft. The raft round-trip delivers the command
to `applyCreateUser` on the same catalog in the single-node model. -/
def leaderCreateUser (u : User) (now : Int) (md : Data) : Data × Option StatusError :=
  match UserByName u.Name md with
  | some _ => (md, some ErrUserExists)
  | none => applyCreateUser { u with CreatedAt := now } md

/-- `CreateUser` from `user.go`: `u.System = false // clear the system flag`,
then act as leader or forward the very same payload to the leader's
`handleCreateUser`, which calls `leaderCreateUser`; both routes run
`leaderCreateUser` on the cleared user. -/
def CreateUser (u : User) (now : Int) (md : Data) : Data × Option StatusError :=
  leaderCreateUser { u with System := false } now md

/-- `applyDropUser` from `user.go`: unconditionally delete the lowercased
key and return `nil`. -/
def applyDropUser (name : String) (md : Data) : Data × Option StatusError :=
  ({ md with Users := mdelete (toLower name) md.Users }, none)

/-- `leaderDropUser` from `user.go`: a missing user is a success; a system
user is rejected with `ErrSystemUser`; otherwise the `drop-user` command is
applied (and a hypothetical `ErrUserNotExists` from the apply would also be
mapped to success — `applyDropUser` never returns it). -/
def leaderDropUser (name : String) (md : Data) : Data × Option StatusError :=
  match UserByName name md with
  | none => (md, none)
  | some u =>
      if u.System then (md, some ErrSystemUser)
      else applyDropUser name md

/-- `DropUser` from `user.go`: leaders run `leaderDropUser` directly;
followers forward to the leader's `handleDropUser`, which (for a non-empty
name) runs `leaderDropUser` as well. -/
def DropUser (name : String) (md : Data) : Data × Option StatusError :=
  leaderDropUser name md

/-- HTTP status written by `handleDropUser`: 400 for an empty name, the
error's status code on failure, 204 (`http.StatusNoContent`) on success. -/
def handleDropUserStatus (name : String) (md : Data) : Nat :=
  if name = "" then 400
  else
    match (leaderDropUser name md).2 with
    | some se => se.StatusCode
    | none => 204

/-- `applyCreateDatabase` from `database.go`: store the command's database
under the lowercased key when absent, else `ErrDatabaseExists`. -/
def applyCreateDatabase (cmd : Database) (md : Data) : Data × Option StatusError :=
  let key := toLower cmd.Name
  match mlookup key md.Databases with
  | none => ({ md with Databases := minsert key cmd md.Databases }, none)
  | some _ => (md, some ErrDatabaseExists)

/-- `DatabaseByName` from `database.go`. -/
def DatabaseByName (name : String) (md : Data) : Option Database :=
  mlookup (toLower name) md.Databases

/-- `applyDropDatabase` from `database.go`: unconditional delete, `nil`. -/
def applyDropDatabase (name : String) (md : Data) : Data × Option StatusError :=
  ({ md with Databases := mdelete (toLower name) md.Databases }, none)

/-- `leaderDropDatabase` from `database.go`: a missing database yields
`ErrDatabaseNotExists`; otherwise the `drop-database` command is applied. -/
def leaderDropDatabase (name : String) (md : Data) : Data × Option StatusError :=
  match DatabaseByName name md with
  | none => (md, some ErrDatabaseNotExists)
  | some _ => applyDropDatabase name md

/-- `DropDatabase` from `database.go`: leaders run `leaderDropDatabase`;
followers forward to `handleDropDatabase`, which runs it too. -/
def DropDatabase (name : String) (md : Data) : Data × Option StatusError :=
  leaderDropDatabase name md

/-- `getUser` from `user.go`: the (lowercased) lookup plus the
`len(md.Users) == 0` emptiness flag. -/
def getUser (name : String) (md : Data) : Option User × Bool :=
  (mlookup (toLower name) md.Users, md.Users.isEmpty)

/-- `RequiredPrivileges` from `user.go`. -/
structure RequiredPrivileges where
  Global : Privilege
  Databases : List (String × Privilege)
deriving DecidableEq, Repr

/-- The `for db, priv := range rp.Databases` loop of `Auth`: fail with
`ErrInsufficientPrivileges` on the first entry whose required bits are not
all covered by `u.Priv | u.DbPriv[db]` (a missing `DbPriv` entry reads as
the zero value). -/
def checkDbPrivs (u : User) : List (String × Privilege) → Option StatusError
  | [] => none
  | (db, priv) :: rest =>
      if (u.Priv ||| ((mlookup db u.DbPriv).getD 0)) &&& priv ≠ priv then
        some ErrInsufficientPrivileges
      else checkDbPrivs u rest

/-- `Auth` from `user.go`, with its early returns in source order. -/
def Auth (name pwd : String) (rp : RequiredPrivileges) (md : Data) : Option StatusError :=
  let gu := getUser name md
  if gu.2 then none
  else if name = "" then some ErrAuthRequired
  else
    match gu.1 with
    | none => some ErrPasswordMismatch
    | some u =>
        if pwd ≠ u.Password then some ErrPasswordMismatch
        else if u.Priv = PrivilegeAdmin then none
        else if u.Priv &&& rp.Global ≠ rp.Global then some ErrInsufficientPrivileges
        else checkDbPrivs u rp.Databases

/-- `NodeInfo` from `node.go` (runtime info; `LastHeartbeatTime` is an
instant, `Role` a bitmask). -/
structure NodeInfo where
  ID : String
  Addr : String
  Role : Nat
  LastHeartbeatTime : Int
deriving DecidableEq, Repr

/-- A Go `map[string]*NodeInfo` viewed extensionally. -/
abbrev NodeMap := String → Option NodeInfo

/-- First loop of `applyUpdateNodeList`: delete every local entry whose ID
is not a key of the command. -/
def removeAbsentNodes (cmd nodes : NodeMap) : NodeMap := fun id =>
  match cmd id with
  | none => none
  | some _ => nodes id

/-- Second loop of `applyUpdateNodeList`: for each command entry, install it
only when there is no local record or the local record's
`LastHeartbeatTime` is `Before` (strictly less than) the command's. -/
def installNewerNodes (cmd nodes : NodeMap) : NodeMap := fun id =>
  match cmd id with
  | none => nodes id
  | some ni =>
      match nodes id with
      | none => some ni
      | some ni1 =>
          if ni1.LastHeartbeatTime < ni.LastHeartbeatTime then some ni else some ni1

/-- `applyUpdateNodeList` from `node.go`: the delete loop followed by the
conditional-install loop over the command's entries. -/
def applyUpdateNodeList (cmd nodes : NodeMap) : NodeMap :=
  installNewerNodes cmd (removeAbsentNodes cmd nodes)

/-- `joinRequest` from `node.go`. -/
structure joinRequest where
  ClusterName : String
  ID : String
  Addr : String
  Voter : Bool
deriving DecidableEq, Repr

/-- The observable part of an HTTP handler's response: the status code, the
value of the `X-Meta-Leader-Hint` header if the handler set it, and the
body text. -/
structure HttpResponse where
  status : Nat
  leaderHint : Option String
  body : String
deriving DecidableEq, Repr

/-- `handleAddNode` from `node.go`. Inputs: the decoded request body
(`none` for a JSON decode failure), the configured cluster name, whether
this node is currently the raft leader, and the outcome of `leaderAddNode`
for the case the leader path is reached. No branch calls
`w.Header().Set`, so the leader-hint header is absent from every
response. -/
def handleAddNode (body : Option joinRequest) (clusterName : String)
    (isLeader : Bool) (leaderAddNodeResult : Option StatusError) : HttpResponse :=
  match body with
  | none => { status := 400, leaderHint := none, body := "failed to decode join request" }
  | some jr =>
      if jr.ID = "" ∨ jr.Addr = "" then
        { status := 400, leaderHint := none, body := "invalid join request" }
      else if jr.ClusterName ≠ clusterName then
        { status := 403, leaderHint := none, body := "wrong cluster name" }
      else if ¬ isLeader then
        { status := 503, leaderHint := none, body := "not leader" }
      else
        match leaderAddNodeResult with
        | some se => { status := se.StatusCode, leaderHint := none, body := se.Msg }
        | none => { status := 204, leaderHint := none, body := "" }

/-- `handleDropNode` from `node.go`: same shape for the drop path. -/
def handleDropNode (id : String) (isLeader : Bool)
    (leaderDropNodeResult : Option StatusError) : HttpResponse :=
  if id = "" then { status := 400, leaderHint := none, body := "invalid request" }
  else if ¬ isLeader then
    { status := 503, leaderHint := none, body := "not leader" }
  else
    match leaderDropNodeResult with
    | some se => { status := se.StatusCode, leaderHint := none, body := se.Msg }
    | none => { status := 204, leaderHint := none, body := "" }

/-- Characters removed at both ends by `strings.Trim(s, " \t")`. -/
def isCutChar (c : Char) : Bool := c = ' ' ∨ c = '\t'

/-- `strings.Trim(s, " \t")`: drop cutset characters from both ends. -/
def trimCut (l : List Char) : List Char :=
  ((l.dropWhile isCutChar).reverse.dropWhile isCutChar).reverse

/-- One round of the segment scan in `Privilege.parse`: the part before the
first `','` (`str[:idx]`) and the remainder after it (`str[idx+1:]`, the
whole rest when there is no comma). The remainder is never longer than the
tail of the input, so each loop round consumes at least one character. -/
def splitSeg : List Char → List Char × List Char
  | [] => ([], [])
  | c :: rest =>
      if c = ',' then ([], rest)
      else
        let p := splitSeg rest
        (c :: p.1, p.2)

/-- The loop of `Privilege.parse` from `user.go`: chop off the segment
before the next `','`, normalize it with `ToUpper(Trim(s, " \t"))`, and OR
the named flag into the accumulator; an unknown segment is an error
(`none`). The structural `fuel` bounds the iteration count; every round
consumes at least one character, so the `str.length` supplied by
`Privilege.parse` is always enough and the fuel-exhaustion branch is dead
code. -/
def Privilege.parseLoop : Nat → List Char → Privilege → Option Privilege
  | _, [], v => some v
  | 0, _ :: _, _ => none
  | fuel + 1, c :: rest, v =>
      let p := splitSeg (c :: rest)
      let tok := (trimCut p.1).map Char.toUpper
      if tok = [] ∨ tok = "NONE".toList then Privilege.parseLoop fuel p.2 v
      else if tok = "DEBUG".toList then Privilege.parseLoop fuel p.2 (v ||| PrivilegeDebug)
      else if tok = "READ".toList then Privilege.parseLoop fuel p.2 (v ||| PrivilegeRead)
      else if tok = "WRITE".toList then Privilege.parseLoop fuel p.2 (v ||| PrivilegeWrite)
      else if tok = "ADMIN".toList then Privilege.parseLoop fuel p.2 (v ||| PrivilegeAdmin)
      else none

/-- `Privilege.parse` from `user.go`: starts from `PrivilegeNone`; `some`
is a `nil` error with the parsed value stored through the pointer.
`UnmarshalText` calls exactly this on the text. -/
def Privilege.parse (str : List Char) : Option Privilege :=
  Privilege.parseLoop str.length str PrivilegeNone

/-- `Privilege.String` from `user.go` (also the payload of `MarshalText`):
empty for `PrivilegeNone`, `ADMIN` for the sentinel, else the
comma-joined names of the set mask bits in DEBUG, READ, WRITE order. -/
def Privilege.String (p : Privilege) : List Char :=
  if p = PrivilegeNone then []
  else if p = PrivilegeAdmin then "ADMIN".toList
  else
    let s := if p &&& PrivilegeDebug = PrivilegeDebug then "DEBUG".toList else []
    let s :=
      if p &&& PrivilegeRead = PrivilegeRead then
        if s ≠ [] then s ++ ",READ".toList else "READ".toList
      else s
    let s :=
      if p &&& PrivilegeWrite = PrivilegeWrite then
        if s ≠ [] then s ++ ",WRITE".toList else "WRITE".toList
      else s
    s

/-- The two error values of `utils.ParseDuration`:
`ErrInvalidDuration` and `ErrDurationOverflow`. -/
inductive DurationError where
  | invalid
  | overflow
deriving DecidableEq, Repr

deriving instance DecidableEq for Except

/-- A byte outside `'0'..'9'` ends the digit scan / extends the unit scan
(in the Go code, `uint64(s[i]) - '0' > 9` and `s[i] < '0' || s[i] > '9'`). -/
def nonDigit (c : Char) : Bool := c < '0' ∨ '9' < c

/-- Digit-scanning loop of `utils.ParseDuration`: accumulate `v = v*10 + c`
while guarding `(1<<63 - c)/10 <= v` against overflow; stop at the first
non-digit and return the remaining characters. -/
def scanValue : List Char → Nat → Except DurationError (Nat × List Char)
  | [], v => .ok (v, [])
  | c :: rest, v =>
      if nonDigit c then .ok (v, c :: rest)
      else
        let d := c.toNat - '0'.toNat
        if (2 ^ 63 - d) / 10 ≤ v then .error .overflow
        else scanValue rest (v * 10 + d)

/-- Unit table of `utils.ParseDuration` (`time` constants in nanoseconds);
`none` is the invalid-duration error. -/
def unitOf (u : List Char) : Option Nat :=
  if u = "ns".toList then some 1
  else if u = "us".toList ∨ u = "µs".toList ∨ u = "μs".toList then some 1000
  else if u = "ms".toList then some 1000000
  else if u = "s".toList then some 1000000000
  else if u = "m".toList then some 60000000000
  else if u = "h".toList then some 3600000000000
  else if u = "d".toList then some 86400000000000
  else if u = "w".toList then some 604800000000000
  else none

/-- Outer loop of `utils.ParseDuration`: scan a (mandatory) digit run, scan
the following non-digit run as the unit, guard `1<<63/unit <= v` and
`1<<63 - v*unit <= d` against overflow, and accumulate `d += v*unit`.
The structural `fuel` bounds the iteration count; every round consumes at
least one (digit) character, so the `s.length` supplied by `ParseDuration`
is always enough and the fuel-exhaustion branch is dead code. -/
def ParseDurationLoop : Nat → List Char → Nat → Except DurationError Nat
  | _, [], d => .ok d
  | 0, _ :: _, _ => .error .invalid
  | fuel + 1, c :: cs, d =>
      match scanValue (c :: cs) 0 with
      | .error e => .error e
      | .ok (v, rest) =>
          if rest.length = (c :: cs).length then .error .invalid
          else
            let us := rest.takeWhile nonDigit
            let rest2 := rest.dropWhile nonDigit
            match unitOf us with
            | none => .error .invalid
            | some unit =>
                if 2 ^ 63 / unit ≤ v then .error .overflow
                else
                  let v1 := v * unit
                  if 2 ^ 63 - v1 ≤ d then .error .overflow
                  else ParseDurationLoop fuel rest2 (d + v1)

/-- `utils.ParseDuration` on the characters of the input string. -/
def ParseDuration (s : List Char) : Except DurationError Nat :=
  ParseDurationLoop s.length s 0

/-- `utils.FormatDuration` for a non-negative duration (the function panics
on negative input): `"0s"` for zero, else the largest-unit-first
decomposition with `strconv.FormatUint` decimal digits. -/
def FormatDuration (d0 : Nat) : List Char :=
  if d0 = 0 then "0s".toList
  else
    let v1 := d0 / 604800000000000
    let d1 := d0 - v1 * 604800000000000
    let v2 := d1 / 86400000000000
    let d2 := d1 - v2 * 86400000000000
    let v3 := d2 / 3600000000000
    let d3 := d2 - v3 * 3600000000000
    let v4 := d3 / 60000000000
    let d4 := d3 - v4 * 60000000000
    let v5 := d4 / 1000000000
    let d5 := d4 - v5 * 1000000000
    let v6 := d5 / 1000000
    let d6 := d5 - v6 * 1000000
    let v7 := d6 / 1000
    let d7 := d6 - v7 * 1000
    (if v1 > 0 then Nat.toDigits 10 v1 ++ ['w'] else []) ++
    (if v2 > 0 then Nat.toDigits 10 v2 ++ ['d'] else []) ++
    (if v3 > 0 then Nat.toDigits 10 v3 ++ ['h'] else []) ++
    (if v4 > 0 then Nat.toDigits 10 v4 ++ ['m'] else []) ++
    (if v5 > 0 then Nat.toDigits 10 v5 ++ ['s'] else []) ++
    (if v6 > 0 then Nat.toDigits 10 v6 ++ "ms".toList else []) ++
    (if v7 > 0 then Nat.toDigits 10 v7 ++ "us".toList else []) ++
    (if d7 > 0 then Nat.toDigits 10 d7 ++ "ns".toList else [])

/-- Looking up a freshly inserted key returns the inserted value. -/
theorem mlookup_minsert_self (k : String) (v : α) :
    ∀ m : List (String × α), mlookup k (minsert k v m) = some v := by
  intro m
  induction m with
  | nil => simp [minsert, mlookup]
  | cons h t ih =>
      obtain ⟨k1, v1⟩ := h
      simp only [minsert]
      split
      · simp [mlookup]
      · next hne => simp [mlookup, hne, ih]

/-- Looking up a freshly deleted key fails. -/
theorem mlookup_mdelete_self (k : String) :
    ∀ m : List (String × α), mlookup k (mdelete k m) = none := by
  intro m
  induction m with
  | nil => simp [mdelete, mlookup]
  | cons h t ih =>
      obtain ⟨k1, v1⟩ := h
      simp only [mdelete]
      split
      · exact ih
      · next hne => simp [mlookup, hne, ih]

/-- Claim C1: the snapshot round-trip does NOT reproduce every reachable
catalog. The catalog reached from the empty state by one applied
`create-database` command has one entry in `Databases`; `Data.clone` (the
value `Snapshot()` returns) copies only the `Users` map, so the catalog
decoded back by `Restore` from the bytes `Persist` writes has an empty
`Databases` map and differs from the original. -/
theorem snapshot_restore_drops_databases :
    (applyCreateDatabase ⟨"db", 0⟩ newData).2 = none ∧
    (applyCreateDatabase ⟨"db", 0⟩ newData).1.Databases = [("db", ⟨"db", 0⟩)] ∧
    Restore (Data.Persist (Snapshot (applyCreateDatabase ⟨"db", 0⟩ newData).1)) ≠
      (applyCreateDatabase ⟨"db", 0⟩ newData).1 ∧
    (Restore (Data.Persist (Snapshot (applyCreateDatabase ⟨"db", 0⟩ newData).1))).Databases =
      [] := by
  decide

/-- Claim C4 counterexample: dropping a database whose name is not present
is NOT a success — on the empty catalog (where `"metrics"` is certainly
absent) `DropDatabase` returns `ErrDatabaseNotExists`, not `nil`. -/
theorem dropDatabase_missing_is_error :
    DatabaseByName "metrics" newData = none ∧
    (DropDatabase "metrics" newData).2 ≠ none ∧
    (DropDatabase "metrics" newData).2 = some ErrDatabaseNotExists := by
  decide

/-- Claim C4 (amended): for a name not present in the catalog, `DropUser`
returns success (`nil`) and leaves the catalog unchanged, while
`DropDatabase` returns `ErrDatabaseNotExists` (404) and leaves the catalog
unchanged. -/
theorem drop_missing_semantics (name : String) (md : Data) :
    (UserByName name md = none → DropUser name md = (md, none)) ∧
    (DatabaseByName name md = none →
       DropDatabase name md = (md, some ErrDatabaseNotExists)) := by
  constructor
  · intro h
    unfold DropUser leaderDropUser
    rw [h]
  · intro h
    unfold DropDatabase leaderDropDatabase
    rw [h]

/-- Claim C4 witness: concrete instantiation of `drop_missing_semantics` on
the empty catalog. -/
theorem drop_missing_semantics_witness :
    DropUser "ghost" newData = (newData, none) ∧
    DropDatabase "ghost" newData = (newData, some ErrDatabaseNotExists) :=
  ⟨(drop_missing_semantics "ghost" newData).1 (by decide),
   (drop_missing_semantics "ghost" newData).2 (by decide)⟩

/-- Claim C5: `DropUser` on a system user returns the 403 error
`ErrSystemUser` and leaves the catalog unchanged; on an existing
non-system user returns `nil` (HTTP 204) and removes the user; on a
non-existent user returns `nil` (HTTP 204). -/
theorem DropUser_system_protection (name : String) (md : Data) :
    (∀ u, UserByName name md = some u → u.System = true →
        DropUser name md = (md, some ErrSystemUser) ∧
        ErrSystemUser.StatusCode = 403 ∧
        (name ≠ "" → handleDropUserStatus name md = 403)) ∧
    (∀ u, UserByName name md = some u → u.System = false →
        (DropUser name md).2 = none ∧
        UserByName name (DropUser name md).1 = none ∧
        (name ≠ "" → handleDropUserStatus name md = 204)) ∧
    (UserByName name md = none →
        DropUser name md = (md, none) ∧
        (name ≠ "" → handleDropUserStatus name md = 204)) := by
  refine ⟨?_, ?_, ?_⟩
  · intro u hu hsys
    have hdrop : leaderDropUser name md = (md, some ErrSystemUser) := by
      simp [leaderDropUser, hu, hsys]
    refine ⟨hdrop, rfl, ?_⟩
    intro hname
    simp [handleDropUserStatus, hname, hdrop, ErrSystemUser]
  · intro u hu hsys
    have hdrop : leaderDropUser name md = applyDropUser name md := by
      simp [leaderDropUser, hu, hsys]
    refine ⟨?_, ?_, ?_⟩
    · simp [DropUser, hdrop, applyDropUser]
    · simp [DropUser, hdrop, applyDropUser, UserByName, mlookup_mdelete_self]
    · intro hname
      simp [handleDropUserStatus, hname, hdrop, applyDropUser]
  · intro hu
    have hdrop : leaderDropUser name md = (md, none) := by
      simp [leaderDropUser, hu]
    refine ⟨hdrop, ?_⟩
    intro hname
    simp [handleDropUserStatus, hname, hdrop]

/-- Claim C5 witness: concrete catalog with a system user `root` and a
plain user `bob`; dropping `root` is a 403 (`ErrSystemUser`), dropping
`bob` succeeds and removes him, dropping an absent `carol` succeeds. -/
theorem DropUser_system_protection_witness :
    DropUser "root"
        ⟨[("root", ⟨"root", "pw", 0, true, PrivilegeAdmin, []⟩),
          ("bob", ⟨"bob", "x", 1, false, PrivilegeRead, []⟩)], []⟩ =
      (⟨[("root", ⟨"root", "pw", 0, true, PrivilegeAdmin, []⟩),
          ("bob", ⟨"bob", "x", 1, false, PrivilegeRead, []⟩)], []⟩,
        some ErrSystemUser) ∧
    handleDropUserStatus "bob"
        ⟨[("root", ⟨"root", "pw", 0, true, PrivilegeAdmin, []⟩),
          ("bob", ⟨"bob", "x", 1, false, PrivilegeRead, []⟩)], []⟩ = 204 ∧
    handleDropUserStatus "carol"
        ⟨[("root", ⟨"root", "pw", 0, true, PrivilegeAdmin, []⟩),
          ("bob", ⟨"bob", "x", 1, false, PrivilegeRead, []⟩)], []⟩ = 204 := by
  refine ⟨?_, ?_, ?_⟩
  · exact ((DropUser_system_protection "root"
      ⟨[("root", ⟨"root", "pw", 0, true, PrivilegeAdmin, []⟩),
        ("bob", ⟨"bob", "x", 1, false, PrivilegeRead, []⟩)], []⟩).1
      ⟨"root", "pw", 0, true, PrivilegeAdmin, []⟩ (by decide) (by decide)).1
  · exact (((DropUser_system_protection "bob"
      ⟨[("root", ⟨"root", "pw", 0, true, PrivilegeAdmin, []⟩),
        ("bob", ⟨"bob", "x", 1, false, PrivilegeRead, []⟩)], []⟩).2.1
      ⟨"bob", "x", 1, false, PrivilegeRead, []⟩ (by decide) (by decide)).2.2 (by decide))
  · exact (((DropUser_system_protection "carol"
      ⟨[("root", ⟨"root", "pw", 0, true, PrivilegeAdmin, []⟩),
        ("bob", ⟨"bob", "x", 1, false, PrivilegeRead, []⟩)], []⟩).2.2
      (by decide)).2 (by decide))

/-- Claim C7 counterexample: a join request reaching a non-leader voter is
answered with status 503 and WITHOUT the `X-Meta-Leader-Hint` header (the
handler never sets any header, whether or not a leader is known), and the
same holds for the drop-node handler. -/
theorem handleNode_not_leader_503_without_hint :
    (handleAddNode (some ⟨"c1", "n2", "10.0.0.2:8002", true⟩) "c1" false none).status = 503 ∧
    (handleAddNode (some ⟨"c1", "n2", "10.0.0.2:8002", true⟩) "c1" false none).leaderHint =
      none ∧
    (handleDropNode "n2" false none).status = 503 ∧
    (handleDropNode "n2" false none).leaderHint = none := by
  decide

/-- Claim C7 (amended): no response produced by `handleAddNode` or
`handleDropNode` carries the `X-Meta-Leader-Hint` header — in particular
the 503 not-leader responses do not, whether or not the leader is known. -/
theorem handleNode_never_sets_leader_hint (body : Option joinRequest)
    (clusterName : String) (isLeader : Bool) (res : Option StatusError) (id : String) :
    (handleAddNode body clusterName isLeader res).leaderHint = none ∧
    (handleDropNode id isLeader res).leaderHint = none := by
  constructor
  · cases body with
    | none => rfl
    | some jr =>
        unfold handleAddNode
        repeat' split
        all_goals rfl
  · unfold handleDropNode
    repeat' split
    all_goals rfl

/-- Claim C2: the first-user rule. When the `Users` map is empty,
`applyCreateUser` stores the command's user with `System = true` and
`Priv = PrivilegeAdmin` regardless of the `System` and `Priv` fields the
command carried, and returns `nil`; when the map is non-empty and the key
is absent, the command's user is stored with all fields unchanged. -/
theorem applyCreateUser_first_user_rule (cmd : createUserCommand) (md : Data) :
    (md.Users = [] →
        (applyCreateUser cmd md).2 = none ∧
        mlookup (toLower cmd.Name) (applyCreateUser cmd md).1.Users =
          some { cmd with Priv := PrivilegeAdmin, System := true }) ∧
    (md.Users ≠ [] → mlookup (toLower cmd.Name) md.Users = none →
        (applyCreateUser cmd md).2 = none ∧
        mlookup (toLower cmd.Name) (applyCreateUser cmd md).1.Users = some cmd) := by
  constructor
  · intro h
    simp [applyCreateUser, h, mlookup, minsert]
  · intro hne hlk
    cases hm : md.Users with
    | nil => exact absurd hm hne
    | cons a t =>
        rw [hm] at hlk
        simp [applyCreateUser, hm, hlk, mlookup_minsert_self]

/-- Claim C2 witness: on the empty catalog a request with `System = false`
and `Priv = PrivilegeRead` is stored as the system admin; on a non-empty
catalog a second user is stored exactly as requested. -/
theorem applyCreateUser_first_user_rule_witness :
    (applyCreateUser ⟨"Root", "pw", 0, false, PrivilegeRead, []⟩ newData).2 = none ∧
    mlookup "root" (applyCreateUser ⟨"Root", "pw", 0, false, PrivilegeRead, []⟩
        newData).1.Users =
      some ⟨"Root", "pw", 0, true, PrivilegeAdmin, []⟩ ∧
    mlookup "bob" (applyCreateUser ⟨"Bob", "x", 1, true, PrivilegeRead, [("db1", 4)]⟩
        ⟨[("root", ⟨"Root", "pw", 0, true, PrivilegeAdmin, []⟩)], []⟩).1.Users =
      some ⟨"Bob", "x", 1, true, PrivilegeRead, [("db1", 4)]⟩ := by
  refine ⟨?_, ?_, ?_⟩
  · exact ((applyCreateUser_first_user_rule ⟨"Root", "pw", 0, false, PrivilegeRead, []⟩
      newData).1 rfl).1
  · exact ((applyCreateUser_first_user_rule ⟨"Root", "pw", 0, false, PrivilegeRead, []⟩
      newData).1 rfl).2
  · exact ((applyCreateUser_first_user_rule ⟨"Bob", "x", 1, true, PrivilegeRead, [("db1", 4)]⟩
      ⟨[("root", ⟨"Root", "pw", 0, true, PrivilegeAdmin, []⟩)], []⟩).2
      (by decide) (by decide)).2

/-- Claim C8: the exported `CreateUser` clears the `System` flag before
acting or forwarding, so against a catalog that already contains at least
one user, a successfully created user is stored with `System = false`
(and otherwise exactly the requested fields, with the leader-assigned
`CreatedAt`). -/
theorem CreateUser_clears_system_flag (u : User) (now : Int) (md : Data) :
    md.Users ≠ [] →
    (CreateUser u now md).2 = none →
    mlookup (toLower u.Name) (CreateUser u now md).1.Users =
      some { u with System := false, CreatedAt := now } := by
  intro hne hok
  simp only [CreateUser, leaderCreateUser, UserByName] at hok ⊢
  cases hlk : mlookup (toLower u.Name) md.Users with
  | some u1 =>
      rw [hlk] at hok
      simp at hok
  | none =>
      cases hm : md.Users with
      | nil => exact absurd hm hne
      | cons a t =>
          rw [hm] at hlk
          simp [applyCreateUser, hm, hlk, mlookup_minsert_self]

/-- Claim C8 witness: a request for `Bob` with `System = true` against a
one-user catalog is stored with `System = false`. -/
theorem CreateUser_clears_system_flag_witness :
    mlookup "bob" (CreateUser ⟨"Bob", "x", 0, true, PrivilegeRead, []⟩ 5
        ⟨[("root", ⟨"root", "pw", 0, true, PrivilegeAdmin, []⟩)], []⟩).1.Users =
      some ⟨"Bob", "x", 5, false, PrivilegeRead, []⟩ :=
  CreateUser_clears_system_flag ⟨"Bob", "x", 0, true, PrivilegeRead, []⟩ 5
    ⟨[("root", ⟨"root", "pw", 0, true, PrivilegeAdmin, []⟩)], []⟩
    (by decide) (by decide)

/-- Claim C6: applying the same `update-node-list` command twice leaves the
nodes map as after one application; a command entry whose
`LastHeartbeatTime` is not strictly newer than the local record does not
overwrite it; IDs present locally but absent from the command are
deleted. -/
theorem applyUpdateNodeList_idempotent_and_monotone :
    (∀ cmd nodes : NodeMap,
        applyUpdateNodeList cmd (applyUpdateNodeList cmd nodes) =
          applyUpdateNodeList cmd nodes) ∧
    (∀ (cmd nodes : NodeMap) (id : String) (ni ni1 : NodeInfo),
        cmd id = some ni → nodes id = some ni1 →
        ¬ ni1.LastHeartbeatTime < ni.LastHeartbeatTime →
        applyUpdateNodeList cmd nodes id = some ni1) ∧
    (∀ (cmd nodes : NodeMap) (id : String),
        cmd id = none → applyUpdateNodeList cmd nodes id = none) := by
  refine ⟨?_, ?_, ?_⟩
  · intro cmd nodes
    funext id
    simp only [applyUpdateNodeList, installNewerNodes, removeAbsentNodes]
    cases hc : cmd id with
    | none => simp
    | some ni =>
        cases hn : nodes id with
        | none => simp [lt_irrefl]
        | some ni1 =>
            by_cases hlt : ni1.LastHeartbeatTime < ni.LastHeartbeatTime
            · simp [hlt, lt_irrefl]
            · simp [hlt]
  · intro cmd nodes id ni ni1 hc hn hlt
    simp [applyUpdateNodeList, installNewerNodes, removeAbsentNodes, hc, hn, hlt]
  · intro cmd nodes id hc
    simp [applyUpdateNodeList, installNewerNodes, removeAbsentNodes, hc]

/-- Claim C6 witness: a command carrying a heartbeat not newer than the
local one leaves the local record (`t = 5`) in place, and a local ID
absent from the command is deleted. -/
theorem applyUpdateNodeList_idempotent_and_monotone_witness :
    applyUpdateNodeList
        (fun id => if id = "n1" then some ⟨"n1", "addr1", 1, 5⟩ else none)
        (fun id => if id = "n1" then some ⟨"n1", "addr0", 1, 5⟩
                   else if id = "n2" then some ⟨"n2", "addr2", 2, 9⟩ else none)
        "n1" = some ⟨"n1", "addr0", 1, 5⟩ ∧
    applyUpdateNodeList
        (fun id => if id = "n1" then some ⟨"n1", "addr1", 1, 5⟩ else none)
        (fun id => if id = "n1" then some ⟨"n1", "addr0", 1, 5⟩
                   else if id = "n2" then some ⟨"n2", "addr2", 2, 9⟩ else none)
        "n2" = none :=
  ⟨applyUpdateNodeList_idempotent_and_monotone.2.1
      (fun id => if id = "n1" then some ⟨"n1", "addr1", 1, 5⟩ else none)
      (fun id => if id = "n1" then some ⟨"n1", "addr0", 1, 5⟩
                 else if id = "n2" then some ⟨"n2", "addr2", 2, 9⟩ else none)
      "n1" ⟨"n1", "addr1", 1, 5⟩ ⟨"n1", "addr0", 1, 5⟩ (by decide) (by decide) (by decide),
   applyUpdateNodeList_idempotent_and_monotone.2.2
      (fun id => if id = "n1" then some ⟨"n1", "addr1", 1, 5⟩ else none)
      (fun id => if id = "n1" then some ⟨"n1", "addr0", 1, 5⟩
                 else if id = "n2" then some ⟨"n2", "addr2", 2, 9⟩ else none)
      "n2" (by decide)⟩

/-- A non-empty list is not `isEmpty`. -/
theorem isEmpty_false_of_ne_nil {l : List α} (h : l ≠ []) : l.isEmpty = false := by
  cases l with
  | nil => exact absurd rfl h
  | cons a t => rfl

/-- The database-privilege loop of `Auth` succeeds exactly when every
required entry is covered by `u.Priv | u.DbPriv[db]`. -/
theorem checkDbPrivs_eq_none_iff (u : User) :
    ∀ l : List (String × Privilege),
      checkDbPrivs u l = none ↔
        ∀ db p, (db, p) ∈ l →
          (u.Priv ||| ((mlookup db u.DbPriv).getD 0)) &&& p = p := by
  intro l
  induction l with
  | nil => simp [checkDbPrivs]
  | cons hd t ih =>
      obtain ⟨db, p⟩ := hd
      simp only [checkDbPrivs]
      split
      · next hfail =>
          constructor
          · intro hc
            exact absurd hc (by simp)
          · intro hall
            exact absurd (hall db p (by simp)) hfail
      · next hok0 =>
          have hok : (u.Priv ||| ((mlookup db u.DbPriv).getD 0)) &&& p = p :=
            not_ne_iff.mp hok0
          rw [ih]
          constructor
          · intro hall db1 p1 hmem
            rcases List.mem_cons.mp hmem with heq | hmem1
            · simp only [Prod.mk.injEq] at heq
              obtain ⟨rfl, rfl⟩ := heq
              exact hok
            · exact hall db1 p1 hmem1
          · intro hall db1 p1 hmem
            exact hall db1 p1 (List.mem_cons_of_mem _ hmem)

/-- The database-privilege loop fails only with
`ErrInsufficientPrivileges`. -/
theorem checkDbPrivs_ne_none (u : User) :
    ∀ l : List (String × Privilege),
      checkDbPrivs u l ≠ none → checkDbPrivs u l = some ErrInsufficientPrivileges := by
  intro l
  induction l with
  | nil =>
      intro h
      exact absurd rfl h
  | cons hd t ih =>
      obtain ⟨db, p⟩ := hd
      simp only [checkDbPrivs]
      split
      · intro _
        rfl
      · exact ih

/-- Claim C3: the `Auth` decision procedure. With zero users it succeeds
unconditionally; otherwise an empty name is `ErrAuthRequired`; a missing
user or a wrong password is `ErrPasswordMismatch`; an admin user succeeds;
a non-admin user succeeds exactly when `u.Priv` covers `rp.Global` and
every database requirement is covered by `u.Priv | u.DbPriv[db]`, and any
remaining failure is `ErrInsufficientPrivileges`. -/
theorem Auth_decision_procedure (md : Data) (name pwd : String) (rp : RequiredPrivileges) :
    (md.Users = [] → Auth name pwd rp md = none) ∧
    (md.Users ≠ [] → name = "" → Auth name pwd rp md = some ErrAuthRequired) ∧
    (md.Users ≠ [] → name ≠ "" → mlookup (toLower name) md.Users = none →
        Auth name pwd rp md = some ErrPasswordMismatch) ∧
    (∀ u, md.Users ≠ [] → name ≠ "" → mlookup (toLower name) md.Users = some u →
        pwd ≠ u.Password → Auth name pwd rp md = some ErrPasswordMismatch) ∧
    (∀ u, md.Users ≠ [] → name ≠ "" → mlookup (toLower name) md.Users = some u →
        pwd = u.Password → u.Priv = PrivilegeAdmin → Auth name pwd rp md = none) ∧
    (∀ u, md.Users ≠ [] → name ≠ "" → mlookup (toLower name) md.Users = some u →
        pwd = u.Password → u.Priv ≠ PrivilegeAdmin →
        ((Auth name pwd rp md = none ↔
            (u.Priv &&& rp.Global = rp.Global ∧
             ∀ db p, (db, p) ∈ rp.Databases →
               (u.Priv ||| ((mlookup db u.DbPriv).getD 0)) &&& p = p)) ∧
         (Auth name pwd rp md ≠ none →
            Auth name pwd rp md = some ErrInsufficientPrivileges))) := by
  refine ⟨?_, ?_, ?_, ?_, ?_, ?_⟩
  · intro h
    simp [Auth, getUser, h]
  · intro hne hname
    simp [Auth, getUser, isEmpty_false_of_ne_nil hne, hname]
  · intro hne hname hlk
    simp [Auth, getUser, isEmpty_false_of_ne_nil hne, hname, hlk]
  · intro u hne hname hlk hpwd
    simp [Auth, getUser, isEmpty_false_of_ne_nil hne, hname, hlk, hpwd]
  · intro u hne hname hlk hpwd hadmin
    simp [Auth, getUser, isEmpty_false_of_ne_nil hne, hname, hlk, hpwd, hadmin]
  · intro u hne hname hlk hpwd hadmin
    constructor
    · by_cases hg : u.Priv &&& rp.Global = rp.Global
      · have hauth : Auth name pwd rp md = checkDbPrivs u rp.Databases := by
          simp [Auth, getUser, isEmpty_false_of_ne_nil hne, hname, hlk, hpwd, hadmin, hg]
        rw [hauth, checkDbPrivs_eq_none_iff]
        exact ⟨fun hall => ⟨hg, hall⟩, And.right⟩
      · have hauth : Auth name pwd rp md = some ErrInsufficientPrivileges := by
          simp [Auth, getUser, isEmpty_false_of_ne_nil hne, hname, hlk, hpwd, hadmin, hg]
        rw [hauth]
        simp [hg]
    · intro hnne
      by_cases hg : u.Priv &&& rp.Global = rp.Global
      · have hauth : Auth name pwd rp md = checkDbPrivs u rp.Databases := by
          simp [Auth, getUser, isEmpty_false_of_ne_nil hne, hname, hlk, hpwd, hadmin, hg]
        rw [hauth] at hnne ⊢
        exact checkDbPrivs_ne_none u rp.Databases hnne
      · have hauth : Auth name pwd rp md = some ErrInsufficientPrivileges := by
          simp [Auth, getUser, isEmpty_false_of_ne_nil hne, hname, hlk, hpwd, hadmin, hg]
        rw [hauth]

/-- Claim C3 witness: a non-admin user with global READ and db-level WRITE
passes a READ-plus-db-WRITE requirement; an empty name against a
non-empty catalog is `ErrAuthRequired`. -/
theorem Auth_decision_procedure_witness :
    Auth "alice" "pw" ⟨PrivilegeRead, [("db1", PrivilegeWrite)]⟩
        ⟨[("alice", ⟨"alice", "pw", 0, false, PrivilegeRead, [("db1", PrivilegeWrite)]⟩)],
          []⟩ = none ∧
    Auth "" "pw" ⟨PrivilegeNone, []⟩
        ⟨[("alice", ⟨"alice", "pw", 0, false, PrivilegeRead, [("db1", PrivilegeWrite)]⟩)],
          []⟩ = some ErrAuthRequired := by
  constructor
  · exact ((Auth_decision_procedure
      ⟨[("alice", ⟨"alice", "pw", 0, false, PrivilegeRead, [("db1", PrivilegeWrite)]⟩)], []⟩
      "alice" "pw" ⟨PrivilegeRead, [("db1", PrivilegeWrite)]⟩).2.2.2.2.2
      ⟨"alice", "pw", 0, false, PrivilegeRead, [("db1", PrivilegeWrite)]⟩
      (by decide) (by decide) (by decide) (by decide) (by decide)).1.mpr
      ⟨by decide, by
        intro db p hmem
        simp only [List.mem_singleton, Prod.mk.injEq] at hmem
        obtain ⟨rfl, rfl⟩ := hmem
        decide⟩
  · exact (Auth_decision_procedure
      ⟨[("alice", ⟨"alice", "pw", 0, false, PrivilegeRead, [("db1", PrivilegeWrite)]⟩)], []⟩
      "" "pw" ⟨PrivilegeNone, []⟩).2.1 (by decide) rfl

/-- Claim C9: parsing the string produced by `Privilege.String` returns the
original value for every privilege that is either exactly
`PrivilegeAdmin` or carries only `PrivilegeMask` bits (the Go condition
`p &^ PrivilegeMask == 0`); `MarshalText`/`UnmarshalText` are direct
wrappers of this pair, and the JSON codecs only add quoting around the
same strings. -/
theorem Privilege_string_roundtrip (p : Privilege) :
    p = PrivilegeAdmin ∨ p &&& PrivilegeMask = p →
    Privilege.parse (Privilege.String p) = some p := by
  intro h
  rcases h with h | h
  · subst h
    decide
  · have h2 : p ≤ 7 := h ▸ Nat.and_le_right
    interval_cases p <;> decide

/-- Claim C9 witness: `DEBUG,READ,WRITE` (mask value 7) and `ADMIN` round
trip. -/
theorem Privilege_string_roundtrip_witness :
    Privilege.parse (Privilege.String
        (PrivilegeDebug ||| PrivilegeRead ||| PrivilegeWrite)) =
      some (PrivilegeDebug ||| PrivilegeRead ||| PrivilegeWrite) ∧
    Privilege.parse (Privilege.String PrivilegeAdmin) = some PrivilegeAdmin :=
  ⟨Privilege_string_roundtrip (PrivilegeDebug ||| PrivilegeRead ||| PrivilegeWrite)
      (Or.inr (by decide)),
   Privilege_string_roundtrip PrivilegeAdmin (Or.inl rfl)⟩

/-- Claim C10: the duration format/parse round trip FAILS near the top of
the range. `FormatDuration (2^63 - 1)` produces `15250w...`, and
`ParseDuration` rejects the `15250w` component through its conservative
unit-overflow guard `1<<63/unit <= v` even though `15250` weeks is a
representable duration; so the round trip returns `ErrDurationOverflow`
instead of the original value, contradicting `FormatDuration`'s own
documentation that its output "can be parsed by ParseDuration". The
`"7d"` and `"0s"` parts of the claim do hold. -/
theorem ParseDuration_FormatDuration_code_bug :
    ParseDuration (FormatDuration (2 ^ 63 - 1)) = .error .overflow ∧
    FormatDuration (2 ^ 63 - 1) = "15250w1d23h47m16s854ms775us807ns".toList ∧
    ParseDuration "15250w".toList = .error .overflow ∧
    15250 * 604800000000000 < 2 ^ 63 ∧
    ParseDuration "7d".toList = .ok (7 * 24 * 3600 * 1000000000) ∧
    FormatDuration 0 = "0s".toList := by
  decide
